import Mathlib

/-!
Verification of the return-to-print repository: a shallow embedding of the
backend message store (src/backend/message_printer_api/chalicelib/db.py and
app.py, with validators.py and models.py) and of the Raspberry Pi printer
worker (src/pi-worker/worker.py), together with theorems settling the
specification's claims about them.

Modelling conventions:
- DynamoDB is modelled as a list of items in insertion order.  `put_item`
  replaces the item with the same partition key `id` when present, otherwise
  appends; `update_item` edits the matching item in place when present,
  otherwise creates ("upserts") a fresh item holding only the updated
  attributes — exactly DynamoDB's semantics for those calls.
- Timestamps (`datetime.utcnow().isoformat() + 'Z'`) are modelled as natural
  numbers counting seconds since the Unix epoch: the ISO-8601 strings the
  code produces are equal-length and compare lexicographically exactly as
  their instants compare numerically, so ordering-sensitive behaviour is
  preserved.
- The GSI query in `get_next_unprinted` (PrintedStatusIndex, partition key
  `printed`, range key `created_at`, ascending, Limit=1) is modelled as the
  first minimum-`created_at` element, in insertion order, among the items
  with `printed = "false"` that carry a `created_at` attribute (an item
  missing the range key is absent from the index).
- Python exceptions the code catches are modelled by `Except` results or by
  explicit outcome parameters at the hardware/network boundary; a branch of
  the Lean function corresponds to each `except` clause of the source.
-/

/-- A DynamoDB item of the `return-to-print-messages-prod` table.  Fields
follow `models.py` (`Message`): the spec's `sender` is the stored `name`
attribute and the spec's `sequence_number` is `message_number`.  An `Option`
field is `none` when the attribute is absent from the item (or stored as
DynamoDB NULL, which the code treats identically on read via `.get`). -/
structure Item where
  id : String
  name : Option String
  content : Option String
  created_at : Option Nat
  printed : Option String
  printed_at : Option Nat
  message_number : Option Nat
deriving Repr, DecidableEq

/-- The table state: items in insertion order. -/
abbrev Store := List Item

/-- Whether the table holds an item with partition key `i`. -/
def hasId (st : Store) (i : String) : Bool :=
  List.any st (fun x => x.id == i)

/-- `isFresh st i` says no stored item uses id `i` (uuid4 freshness). -/
def isFresh (st : Store) (i : String) : Bool := !(hasId st i)

/-- DynamoDB `put_item`: replace the item with the same `id`, else append. -/
def put_item (it : Item) (st : Store) : Store :=
  if hasId st it.id then
    List.map (fun x => if x.id == it.id then it else x) st
  else st ++ [it]

/-- db.py `create_message(content)`: builds the item
`{'id': uuid4, 'content': content, 'created_at': now, 'printed': 'false',
'printed_at': None}` and `put_item`s it.  The generated uuid and the wall
clock are passed explicitly as `freshId` and `now`.  Note the item carries
no `name` and no `message_number` attribute. -/
def create_message (content : String) (now : Nat) (freshId : String)
    (st : Store) : Item × Store :=
  let m : Item :=
    { id := freshId, name := none, content := some content,
      created_at := some now, printed := some "false", printed_at := none,
      message_number := none }
  (m, put_item m st)

/-- The update applied by `mark_message_printed`'s `UpdateExpression`
(`SET printed = 'true', printed_at = now`). -/
def updatePrinted (t : Nat) (x : Item) : Item :=
  { x with printed := some "true", printed_at := some t }

/-- The item DynamoDB creates when `update_item` runs against an id that is
not in the table: only the key and the two updated attributes exist. -/
def upsertItem (i : String) (t : Nat) : Item :=
  { id := i, name := none, content := none, created_at := none,
    printed := some "true", printed_at := some t, message_number := none }

/-- db.py `mark_message_printed(message_id)`: unconditional `update_item`
setting `printed = 'true'` and `printed_at = now`.  DynamoDB updates the
matching item in place, or upserts a new item when the id is unknown. -/
def mark_message_printed (i : String) (t : Nat) (st : Store) : Store :=
  if hasId st i then
    List.map (fun x => if x.id == i then updatePrinted t x else x) st
  else st ++ [upsertItem i t]

/-- Membership test of the `PrintedStatusIndex` partition `printed = "false"`:
the item must carry the range key `created_at` to appear in the index. -/
def inUnprintedIndex (x : Item) : Bool :=
  x.printed == some "false" && x.created_at.isSome

/-- The range-key value used by the index ordering (every indexed item has
`created_at` set; the default is never consulted). -/
def key (x : Item) : Nat := x.created_at.getD 0

/-- Keep the older of two items, preferring the first on ties — folding this
left over the index partition yields the first element of the ascending
query, i.e. minimum `created_at` with ties broken by insertion order. -/
def pickOlder (a b : Item) : Item :=
  if key b < key a then b else a

/-- db.py `get_next_unprinted()`: GSI query `printed = 'false'`, ascending by
`created_at`, `Limit=1`; `None` when the partition is empty. -/
def get_next_unprinted (st : Store) : Option Item :=
  match List.filter inUnprintedIndex st with
  | [] => none
  | x :: xs => some (List.foldl pickOlder x xs)

/-! ## Validators and API endpoints (validators.py, app.py)

Python's `str.strip()` is modelled by `pyStrip` — dropping leading and
trailing whitespace characters (identical to Python on the ASCII whitespace
the code meets) — and `len` by `String.length` (both count characters).  An
endpoint returns its HTTP status plus the relevant body datum, and the
store it leaves behind. -/

/-- Python `str.strip()`: remove leading and trailing whitespace. -/
def pyStrip (s : String) : String :=
  String.mk
    (List.reverse (List.dropWhile Char.isWhitespace
      (List.reverse (List.dropWhile Char.isWhitespace s.data))))

/-- validators.py `validate_name`: require presence, strip, reject empty or
longer than 50 characters. -/
def validate_name : Option String → Except String String
  | none => Except.error "Name is required"
  | some s =>
    let t := pyStrip s
    if t = "" then Except.error "Name cannot be empty or whitespace only"
    else if t.length > 50 then
      Except.error ("Name too long: " ++ toString t.length ++ " characters (max 50)")
    else Except.ok t

/-- validators.py `validate_message_content`: require presence, strip,
reject empty or longer than 280 characters. -/
def validate_message_content : Option String → Except String String
  | none => Except.error "Content is required"
  | some s =>
    let t := pyStrip s
    if t = "" then Except.error "Content cannot be empty or whitespace only"
    else if t.length > 280 then
      Except.error ("Content too long: " ++ toString t.length ++ " characters (max 280)")
    else Except.ok t

/-- validators.py `validate_message_id`: require presence, strip, reject
empty. -/
def validate_message_id : Option String → Except String String
  | none => Except.error "Message ID is required"
  | some s =>
    let t := pyStrip s
    if t = "" then Except.error "Message ID cannot be empty" else Except.ok t

/-- app.py `create_message` (POST /message): validate `name` and `content`
(400 on a `ValueError`), then call `db.create_message(name, content)`.
That call site passes two positional arguments, but db.py's
`create_message` accepts a single `content` parameter, so Python raises
`TypeError` at the call; the handler's `except Exception` branch
(app.py line 55) catches it and answers 500 before any item is written. -/
def app_create_message (name content : Option String) (st : Store) :
    (Nat × Option Item) × Store :=
  match validate_name name with
  | Except.error _ => ((400, none), st)
  | Except.ok _ =>
    match validate_message_content content with
    | Except.error _ => ((400, none), st)
    | Except.ok _ => ((500, none), st)

/-- app.py `get_next_to_print` (GET /printer/next-to-print): always 200,
body `{'message': db.get_next_unprinted()}` — `null` when none exist. -/
def get_next_to_print (st : Store) : Nat × Option Item :=
  (200, get_next_unprinted st)

/-- app.py `mark_message_printed` (POST /printer/mark-printed): validate the
id (400 on a `ValueError`), call `db.mark_message_printed`, answer
200 `{'status': 'ok', 'id': id}`.  No existence check is performed. -/
def app_mark_message_printed (bodyId : Option String) (now : Nat)
    (st : Store) : (Nat × Option String) × Store :=
  match validate_message_id bodyId with
  | Except.error _ => ((400, none), st)
  | Except.ok i => ((200, some i), mark_message_printed i now st)

/-! ## Printer worker (src/pi-worker/worker.py)

The worker's mutable state is the USB handle `self.printer` and the
`self.running` flag.  Hardware and network nondeterminism is supplied as an
explicit per-iteration oracle: one constructor per `except` clause of the
source, plus the success case. -/

/-- The worker's process state (`self.printer`, `self.running`). -/
structure WorkerState where
  printer : Option Unit
  running : Bool
deriving Repr, DecidableEq

/-- Outcome of the `Usb(vendor_id, product_id)` constructor in
`connect_printer`: success, `USBNotFoundError`, `PermissionError`, or any
other exception (each with its own `except` clause in the source). -/
inductive ConnectOutcome where
  | ok
  | usbNotFound
  | permissionDenied
  | otherError
deriving Repr, DecidableEq

/-- Outcome of the hardware writes inside `print_message`: success,
`USBNotFoundError` (printer disconnected mid-print), `EscposError`
(device-level error such as busy), or any other exception. -/
inductive PrintHw where
  | ok
  | usbNotFound
  | escposError
  | otherError
deriving Repr, DecidableEq

/-- Whether the HTTP poll in `get_next_message` reached the backend (every
network failure is caught and collapses to returning `None`). -/
inductive PollOutcome where
  | netOk
  | netFail
deriving Repr, DecidableEq

/-- Whether the HTTP POST in `mark_as_printed` reached the backend (every
network failure is caught and collapses to returning `False`). -/
inductive MarkNet where
  | netOk
  | netFail
deriving Repr, DecidableEq

/-- The environment's behaviour during one iteration of `run`'s loop. -/
structure IterOracle where
  connect : ConnectOutcome
  poll : PollOutcome
  printHw : PrintHw
  markNet : MarkNet
  markTime : Nat
deriving Repr, DecidableEq

/-- worker.py `connect_printer` (lines 106-140): on success store the handle
and return True; on `USBNotFoundError`, `PermissionError`, or any other
exception, log, set `self.printer = None` and return False.  Every branch
returns — no exception escapes to the caller. -/
def connect_printer (o : ConnectOutcome) (w : WorkerState) :
    Bool × WorkerState :=
  match o with
  | ConnectOutcome.ok => (true, { w with printer := some () })
  | ConnectOutcome.usbNotFound => (false, { w with printer := none })
  | ConnectOutcome.permissionDenied => (false, { w with printer := none })
  | ConnectOutcome.otherError => (false, { w with printer := none })

/-- worker.py `print_message`, control-flow aspect (lines 206-306): return
False at once when no handle is held; otherwise the outcome of the device
writes decides the result — `USBNotFoundError` additionally clears
`self.printer` ("Force reconnection"), while `EscposError` and any other
exception leave the handle in place and only return False. -/
def print_message_result (w : WorkerState) (o : PrintHw) :
    Bool × WorkerState :=
  match w.printer with
  | none => (false, w)
  | some _ =>
    match o with
    | PrintHw.ok => (true, w)
    | PrintHw.usbNotFound => (false, { w with printer := none })
    | PrintHw.escposError => (false, w)
    | PrintHw.otherError => (false, w)

/-- Observable calls and sleeps of one iteration of `run`'s loop, in
program order. -/
inductive WAction where
  | connectAttempt
  | sleepReconnect
  | pollStore
  | sleepPoll
  | printAttempt (id : String)
  | markPrintedCall (id : String)
  | sleepPause
deriving Repr, DecidableEq

/-- The loop body from the poll onwards (worker.py lines 401-441): fetch the
next message (network failure or an empty queue both yield `None` and a
poll-interval sleep); print it; only on a successful print call
`mark_as_printed` — whose network failure leaves the store unchanged; then
pause 2 seconds.  `acts` is the action prefix accumulated before polling. -/
def iterFromPoll (w : WorkerState) (st : Store) (o : IterOracle)
    (acts : List WAction) : WorkerState × Store × List WAction :=
  match o.poll with
  | PollOutcome.netFail => (w, st, acts ++ [WAction.pollStore, WAction.sleepPoll])
  | PollOutcome.netOk =>
    match get_next_unprinted st with
    | none => (w, st, acts ++ [WAction.pollStore, WAction.sleepPoll])
    | some m =>
      let pr := print_message_result w o.printHw
      if pr.1 then
        match o.markNet with
        | MarkNet.netOk =>
          (pr.2, mark_message_printed m.id o.markTime st,
           acts ++ [WAction.pollStore, WAction.printAttempt m.id,
                    WAction.markPrintedCall m.id, WAction.sleepPause])
        | MarkNet.netFail =>
          (pr.2, st,
           acts ++ [WAction.pollStore, WAction.printAttempt m.id,
                    WAction.markPrintedCall m.id, WAction.sleepPause])
      else
        (pr.2, st,
         acts ++ [WAction.pollStore, WAction.printAttempt m.id,
                  WAction.sleepPause])

/-- One iteration of `run`'s while-loop (worker.py lines 388-441): with no
handle held, attempt to connect — on failure sleep the 30-second reconnect
backoff and `continue`; on success, or with a handle already held, proceed
to the poll/print/acknowledge sequence. -/
def runIteration (w : WorkerState) (st : Store) (o : IterOracle) :
    WorkerState × Store × List WAction :=
  match w.printer with
  | none =>
    let c := connect_printer o.connect w
    if c.1 then iterFromPoll c.2 st o [WAction.connectAttempt]
    else (c.2, st, [WAction.connectAttempt, WAction.sleepReconnect])
  | some _ => iterFromPoll w st o []

/-! ## Receipt formatting (worker.py `print_message`, lines 210-290)

The sequence of `printer.set` / `printer.text` / `printer.cut` calls is
recorded as a list of operations.  Each `set` constructor mirrors one shape
of keyword arguments used in the source. -/

/-- One escpos call issued by `print_message`. -/
inductive PrintOp where
  | setFull (align : String) (font : String) (width : Nat) (height : Nat) (bold : Bool)
  | setNoBold (align : String) (font : String) (width : Nat) (height : Nat)
  | setBold (bold : Bool)
  | setAlign (align : String)
  | text (s : String)
  | cut
deriving Repr, DecidableEq

/-- `n`-fold repetition of a character (Python `c * n` on strings). -/
def repChar (n : Nat) (c : Char) : String := String.mk (List.replicate n c)

/-- Two-digit zero padding (strftime's `%m`, `%d`, `%I`, `%M`). -/
def pad2 (n : Nat) : String := if n < 10 then "0" ++ toString n else toString n

/-- Python's `f"{n:03d}"` on a natural number. -/
def pad3 (n : Nat) : String :=
  if n < 10 then "00" ++ toString n
  else if n < 100 then "0" ++ toString n
  else toString n

/-- Gregorian (year, month, day) of a day count since 1970-01-01, for
nonnegative day counts — the civil-from-days algorithm underlying
`datetime`. -/
def civilOfDays (z : Nat) : Nat × Nat × Nat :=
  let e := z + 719468
  let era := e / 146097
  let doe := e % 146097
  let yoe := (doe - doe / 1460 + doe / 36524 - doe / 146096) / 365
  let doy := doe - (365 * yoe + yoe / 4 - yoe / 100)
  let mp := (5 * doy + 2) / 153
  let d := doy - (153 * mp + 2) / 5 + 1
  let m := if mp < 10 then mp + 3 else mp - 9
  (yoe + era * 400 + (if m ≤ 2 then 1 else 0), m, d)

/-- Seconds of the Mountain-Time wall clock for a UTC instant `t`:
worker.py applies a fixed UTC-7 offset (`timedelta(hours=-7)`, no DST).
Instants before 1970-01-01T07:00Z are outside the model's domain (the
backend only ever produces current timestamps). -/
def mountainClock (t : Nat) : Nat := t - 25200

/-- strftime `'%m/%d/%Y'` of the Mountain-Time wall clock. -/
def mountainDateStr (t : Nat) : String :=
  let c := civilOfDays (mountainClock t / 86400)
  pad2 c.2.1 ++ "/" ++ pad2 c.2.2 ++ "/" ++ toString c.1

/-- strftime `'%I:%M %p MST'` of the Mountain-Time wall clock. -/
def mountainTimeStr (t : Nat) : String :=
  let s := mountainClock t % 86400
  let h := s / 3600
  let h12 := if h % 12 = 0 then 12 else h % 12
  pad2 h12 ++ ":" ++ pad2 ((s % 3600) / 60) ++ " "
    ++ (if h < 12 then "AM" else "PM") ++ " MST"

/-- The `date_str` produced by `print_message`'s inner try/except: a missing
`created_at` defaults to `''`, whose parse raises and yields `"N/A"`; a
real timestamp parses and is formatted in Mountain Time. -/
def dateStrOf : Option Nat → String
  | none => "N/A"
  | some t => mountainDateStr t

/-- The `time_str` produced by `print_message`'s inner try/except. -/
def timeStrOf : Option Nat → String
  | none => "N/A"
  | some t => mountainTimeStr t

/-- worker.py `print_message`'s successful-path escpos call sequence
(lines 214-290).  The message fields are read with defaults:
`content` → `''`, `name` → `'Anonymous'`, `created_at` → `''` and
`message_number` → `0`, the latter rendered through `f"{n:03d}"`. -/
def print_message_blocks (d : Item) : List PrintOp :=
  let content := d.content.getD ""
  let sender_name := d.name.getD "Anonymous"
  let date_str := dateStrOf d.created_at
  let time_str := timeStrOf d.created_at
  let msg_id := pad3 (d.message_number.getD 0)
  [ PrintOp.setFull "center" "a" 4 4 true,
    PrintOp.text "RECEIPT\n",
    PrintOp.text "ME\n\n",
    PrintOp.setFull "center" "a" 1 1 false,
    PrintOp.text (repChar 48 '=' ++ "\n\n"),
    PrintOp.setFull "left" "a" 1 1 true,
    PrintOp.text "TO: ",
    PrintOp.setBold false,
    PrintOp.text "Andy, Annie, Newt & Harold\n\n",
    PrintOp.setBold true,
    PrintOp.text "MSG: ",
    PrintOp.setBold false,
    PrintOp.text ("#" ++ msg_id ++ "\n\n"),
    PrintOp.setBold true,
    PrintOp.text "DATE: ",
    PrintOp.setBold false,
    PrintOp.text (date_str ++ "\n"),
    PrintOp.setBold true,
    PrintOp.text "TIME: ",
    PrintOp.setBold false,
    PrintOp.text (time_str ++ "\n\n"),
    PrintOp.setBold true,
    PrintOp.text "FROM: ",
    PrintOp.setBold false,
    PrintOp.text (sender_name ++ "\n\n"),
    PrintOp.setAlign "center",
    PrintOp.text (repChar 48 '-' ++ "\n\n"),
    PrintOp.setFull "left" "a" 3 3 false,
    PrintOp.text (content ++ "\n\n"),
    PrintOp.setNoBold "center" "a" 1 1,
    PrintOp.text (repChar 48 '-' ++ "\n"),
    PrintOp.text "receiptme.xyz\n",
    PrintOp.text (repChar 48 '-' ++ "\n\n\n"),
    PrintOp.cut ]

/-! ## Store lemmas -/

/-- The items of the store with `printed = "false"`: the spec's "unprinted
messages", in insertion order. -/
def unprintedOf (st : Store) : List Item :=
  List.filter (fun x => x.printed == some "false") st

/-- Every store in which an unprinted item carries its creation timestamp —
true of every state the backend can reach, since `create_message` writes
`created_at` and `mark_message_printed` never removes it. -/
abbrev WF (st : Store) : Prop :=
  ∀ x ∈ st, x.printed = some "false" → x.created_at.isSome = true

theorem foldl_pickOlder_split (xs : List Item) (x : Item) :
    ∃ pre suf, x :: xs = pre ++ (List.foldl pickOlder x xs) :: suf
      ∧ (∀ y ∈ pre, key (List.foldl pickOlder x xs) < key y)
      ∧ (∀ y ∈ suf, key (List.foldl pickOlder x xs) ≤ key y) := by
  induction xs generalizing x with
  | nil =>
    exact ⟨[], [], rfl, by simp, by simp⟩
  | cons y ys ih =>
    rw [List.foldl_cons]
    rcases Nat.lt_or_ge (key y) (key x) with hlt | hge
    · have hpick : pickOlder x y = y := by
        unfold pickOlder; rw [if_pos hlt]
      rw [hpick]
      obtain ⟨pre, suf, hsplit, hpre, hsuf⟩ := ih y
      have hmy : key (List.foldl pickOlder y ys) ≤ key y := by
        cases pre with
        | nil =>
          rw [List.nil_append] at hsplit
          injection hsplit with h1 h2
          rw [← h1]
        | cons p ps =>
          rw [List.cons_append] at hsplit
          injection hsplit with h1 h2
          have hkp := hpre p (List.mem_cons_self p ps)
          rw [← h1] at hkp
          exact Nat.le_of_lt hkp
      refine ⟨x :: pre, suf, ?_, ?_, hsuf⟩
      · rw [List.cons_append, ← hsplit]
      · intro z hz
        rcases List.mem_cons.mp hz with rfl | hz2
        · exact Nat.lt_of_le_of_lt hmy hlt
        · exact hpre z hz2
    · have hpick : pickOlder x y = x := by
        unfold pickOlder; rw [if_neg (Nat.not_lt.mpr hge)]
      rw [hpick]
      obtain ⟨pre, suf, hsplit, hpre, hsuf⟩ := ih x
      cases pre with
      | nil =>
        rw [List.nil_append] at hsplit
        injection hsplit with h1 h2
        refine ⟨[], y :: ys, ?_, ?_, ?_⟩
        · rw [List.nil_append, ← h1]
        · intro z hz; cases hz
        · intro z hz
          rcases List.mem_cons.mp hz with rfl | hz2
          · rw [← h1]; exact hge
          · exact hsuf z (h2 ▸ hz2)
      | cons p ps =>
        rw [List.cons_append] at hsplit
        injection hsplit with h1 h2
        refine ⟨x :: y :: ps, suf, ?_, ?_, hsuf⟩
        · rw [List.cons_append, List.cons_append, ← h2]
        · intro z hz
          have hpx : key (List.foldl pickOlder x ys) < key x := by
            have hk := hpre p (List.mem_cons_self p ps)
            rw [← h1] at hk
            exact hk
          rcases List.mem_cons.mp hz with rfl | hz2
          · exact hpx
          · rcases List.mem_cons.mp hz2 with rfl | hz3
            · exact Nat.lt_of_lt_of_le hpx hge
            · exact hpre z (List.mem_cons_of_mem p hz3)

theorem get_next_unprinted_none_iff (st : Store) :
    get_next_unprinted st = none ↔ List.filter inUnprintedIndex st = [] := by
  unfold get_next_unprinted
  cases List.filter inUnprintedIndex st <;> simp

theorem get_next_unprinted_some (st : Store) (m : Item)
    (h : get_next_unprinted st = some m) :
    ∃ pre suf, List.filter inUnprintedIndex st = pre ++ m :: suf
      ∧ (∀ y ∈ pre, key m < key y) ∧ (∀ y ∈ suf, key m ≤ key y) := by
  unfold get_next_unprinted at h
  cases hf : List.filter inUnprintedIndex st with
  | nil => rw [hf] at h; cases h
  | cons x xs =>
    rw [hf] at h
    have hm : List.foldl pickOlder x xs = m := by
      injection h
    obtain ⟨pre, suf, hsplit, hpre, hsuf⟩ := foldl_pickOlder_split xs x
    rw [hm] at hsplit hpre hsuf
    exact ⟨pre, suf, hsplit, hpre, hsuf⟩

theorem get_next_unprinted_unprinted (st : Store) (m : Item)
    (h : get_next_unprinted st = some m) :
    m ∈ st ∧ m.printed = some "false" := by
  obtain ⟨pre, suf, hsplit, -, -⟩ := get_next_unprinted_some st m h
  have hmem : m ∈ List.filter inUnprintedIndex st := by
    rw [hsplit]
    exact List.mem_append_right _ (List.mem_cons_self _ _)
  have hmf := List.mem_filter.mp hmem
  refine ⟨hmf.1, ?_⟩
  have hb := hmf.2
  simp only [inUnprintedIndex, Bool.and_eq_true, beq_iff_eq] at hb
  exact hb.1

theorem filter_index_eq_unprinted (st : Store) (hwf : WF st) :
    List.filter inUnprintedIndex st = unprintedOf st := by
  unfold unprintedOf
  apply List.filter_congr
  intro x hx
  unfold inUnprintedIndex
  cases hp : (x.printed == some "false") with
  | false => simp
  | true =>
    have : x.created_at.isSome = true := hwf x hx (beq_iff_eq.mp hp)
    simp [this]

theorem hasId_iff (st : Store) (i : String) :
    hasId st i = true ↔ ∃ x ∈ st, x.id = i := by
  simp [hasId, List.any_eq_true]

theorem hasId_false_forall (st : Store) (i : String)
    (h : hasId st i = false) : ∀ x ∈ st, x.id ≠ i := by
  intro x hx hxi
  have : hasId st i = true := (hasId_iff st i).mpr ⟨x, hx, hxi⟩
  rw [h] at this
  cases this

theorem updatePrinted_id (t : Nat) (x : Item) :
    (updatePrinted t x).id = x.id := rfl

theorem mark_eq_map (st : Store) (i : String) (t : Nat)
    (h : hasId st i = true) :
    mark_message_printed i t st
      = List.map (fun x => if x.id == i then updatePrinted t x else x) st := by
  unfold mark_message_printed
  rw [h]
  simp

theorem mark_eq_append (st : Store) (i : String) (t : Nat)
    (h : hasId st i = false) :
    mark_message_printed i t st = st ++ [upsertItem i t] := by
  unfold mark_message_printed
  rw [h]
  simp

theorem hasId_map_update (st : Store) (i : String) (t : Nat) :
    hasId (List.map (fun x => if x.id == i then updatePrinted t x else x) st) i
      = hasId st i := by
  induction st with
  | nil => rfl
  | cons x xs ih =>
    unfold hasId at *
    rw [List.map_cons, List.any_cons, List.any_cons, ih]
    by_cases hx : (x.id == i) = true
    · rw [if_pos hx, updatePrinted_id]
    · rw [if_neg hx]

theorem hasId_append (st l : Store) (i : String) :
    hasId (st ++ l) i = (hasId st i || hasId l i) := by
  unfold hasId
  exact List.any_append

theorem hasId_mark (st : Store) (i : String) (t : Nat) :
    hasId (mark_message_printed i t st) i = true := by
  cases h : hasId st i with
  | true => rw [mark_eq_map st i t h, hasId_map_update]; exact h
  | false =>
    rw [mark_eq_append st i t h, hasId_append, h]
    simp [hasId, upsertItem]

theorem mem_mark_of_ne (st : Store) (i : String) (t : Nat) (x : Item)
    (hx : x ∈ st) (hne : x.id ≠ i) : x ∈ mark_message_printed i t st := by
  cases h : hasId st i with
  | true =>
    rw [mark_eq_map st i t h]
    refine List.mem_map.mpr ⟨x, hx, ?_⟩
    simp [hne]
  | false =>
    rw [mark_eq_append st i t h]
    exact List.mem_append_left _ hx

theorem mark_matching (st : Store) (i : String) (t : Nat) :
    ∀ x ∈ mark_message_printed i t st, x.id = i →
      x.printed = some "true" ∧ x.printed_at = some t := by
  intro x hx hxi
  cases h : hasId st i with
  | true =>
    rw [mark_eq_map st i t h] at hx
    obtain ⟨y, hy, hyx⟩ := List.mem_map.mp hx
    by_cases hyi : (y.id == i) = true
    · rw [if_pos hyi] at hyx
      rw [← hyx]
      exact ⟨rfl, rfl⟩
    · rw [if_neg hyi] at hyx
      rw [← hyx] at hxi
      exact absurd (beq_iff_eq.mpr hxi) hyi
  | false =>
    rw [mark_eq_append st i t h] at hx
    rcases List.mem_append.mp hx with hin | hnew
    · exact absurd hxi (hasId_false_forall st i h x hin)
    · rcases List.mem_singleton.mp hnew with rfl
      exact ⟨rfl, rfl⟩

theorem mark_absorb (st : Store) (i : String) (t1 t2 : Nat) :
    mark_message_printed i t2 (mark_message_printed i t1 st)
      = mark_message_printed i t2 st := by
  cases h : hasId st i with
  | true =>
    have hmap : hasId (List.map (fun x => if x.id == i then updatePrinted t1 x else x) st) i = true := by
      rw [hasId_map_update]; exact h
    rw [mark_eq_map st i t1 h, mark_eq_map _ i t2 hmap, mark_eq_map st i t2 h,
      List.map_map]
    apply List.map_congr_left
    intro x _
    by_cases hx : (x.id == i) = true
    · simp only [Function.comp_apply, if_pos hx]
      rw [show ((updatePrinted t1 x).id == i) = true from by
        rw [updatePrinted_id]; exact hx]
      simp [updatePrinted]
    · simp only [Function.comp_apply, if_neg hx]
  | false =>
    have happ : hasId (st ++ [upsertItem i t1]) i = true := by
      rw [hasId_append, h]
      simp [hasId, upsertItem]
    rw [mark_eq_append st i t1 h, mark_eq_map _ i t2 happ,
      mark_eq_append st i t2 h, List.map_append]
    congr 1
    · rw [show (List.map (fun x => if x.id == i then updatePrinted t2 x else x) st)
          = List.map id st from ?_]
      · exact List.map_id st
      · apply List.map_congr_left
        intro x hx
        have := hasId_false_forall st i h x hx
        simp [this]
    · simp [upsertItem, updatePrinted]

theorem mark_length (st : Store) (i : String) (t : Nat) :
    (mark_message_printed i t st).length
      = (if isFresh st i = true then st.length + 1 else st.length) := by
  unfold isFresh
  cases h : hasId st i with
  | true => rw [mark_eq_map st i t h]; simp
  | false => rw [mark_eq_append st i t h]; simp

theorem create_fresh_append (st : Store) (c : String) (t : Nat) (i : String)
    (hf : isFresh st i = true) :
    (create_message c t i st).2
      = st ++ [{ id := i, name := none, content := some c,
                 created_at := some t, printed := some "false",
                 printed_at := none, message_number := none }] := by
  unfold create_message put_item
  have hh : hasId st i = false := by
    unfold isFresh at hf
    cases hcase : hasId st i
    · rfl
    · rw [hcase] at hf; cases hf
  simp [hh]

/-! ## Operation sequences over the store

`StoreOp` is a call to one of the two mutating db.py functions; a `create`
carries the uuid4 value generated inside `create_message`, and `freshOps`
records the uuid4 guarantee that each generated id is absent from the table
at generation time. -/

/-- One mutating store operation. -/
inductive StoreOp where
  | create (content : String) (now : Nat) (freshId : String)
  | markPrinted (id : String) (now : Nat)
deriving Repr, DecidableEq

/-- Apply one operation to the table. -/
def applyOp (st : Store) : StoreOp → Store
  | StoreOp.create c t i => (create_message c t i st).2
  | StoreOp.markPrinted i t => mark_message_printed i t st

/-- Apply a sequence of operations, oldest first. -/
def applyOps (st : Store) (ops : List StoreOp) : Store :=
  List.foldl applyOp st ops

/-- Every `create` in the sequence uses an id fresh for the table state it
runs against (the uuid4 model). -/
def freshOps : Store → List StoreOp → Bool
  | _, [] => true
  | st, op :: rest =>
    (match op with
     | StoreOp.create _ _ i => isFresh st i
     | StoreOp.markPrinted _ _ => true) && freshOps (applyOp st op) rest

/-- Id `i` is present and every item bearing it is printed. -/
def PrintedLocked (st : Store) (i : String) : Prop :=
  hasId st i = true ∧ ∀ x ∈ st, x.id = i → x.printed = some "true"

theorem locked_after_mark (st : Store) (i : String) (t : Nat) :
    PrintedLocked (mark_message_printed i t st) i :=
  ⟨hasId_mark st i t,
   fun x hx hxi => (mark_matching st i t x hx hxi).1⟩

theorem hasId_mark_other (st : Store) (i j : String) (t : Nat)
    (h : hasId st i = true) :
    hasId (mark_message_printed j t st) i = true := by
  obtain ⟨x, hx, hxi⟩ := (hasId_iff st i).mp h
  by_cases hij : x.id = j
  · refine (hasId_iff _ i).mpr ?_
    cases hj : hasId st j with
    | true =>
      rw [mark_eq_map st j t hj]
      refine ⟨updatePrinted t x, List.mem_map.mpr ⟨x, hx, ?_⟩, ?_⟩
      · rw [if_pos (beq_iff_eq.mpr hij)]
      · rw [updatePrinted_id]; exact hxi
    | false => exact absurd hij (hasId_false_forall st j hj x hx)
  · exact (hasId_iff _ i).mpr ⟨x, mem_mark_of_ne st j t x hx hij, hxi⟩

theorem locked_mark (st : Store) (i j : String) (t : Nat)
    (h : PrintedLocked st i) :
    PrintedLocked (mark_message_printed j t st) i := by
  refine ⟨hasId_mark_other st i j t h.1, ?_⟩
  intro x hx hxi
  by_cases hji : j = i
  · subst hji
    exact (mark_matching st j t x hx hxi).1
  · cases hc : hasId st j with
    | true =>
      rw [mark_eq_map st j t hc] at hx
      obtain ⟨y, hy, hyx⟩ := List.mem_map.mp hx
      by_cases hyj : (y.id == j) = true
      · rw [if_pos hyj] at hyx
        rw [← hyx] at hxi
        rw [updatePrinted_id] at hxi
        have hyj2 : y.id = j := beq_iff_eq.mp hyj
        exact absurd (hyj2.symm.trans hxi) hji
      · rw [if_neg hyj] at hyx
        exact h.2 x (hyx ▸ hy) hxi
    | false =>
      rw [mark_eq_append st j t hc] at hx
      rcases List.mem_append.mp hx with hin | hnew
      · exact h.2 x hin hxi
      · rcases List.mem_singleton.mp hnew with rfl
        exact rfl

theorem locked_create (st : Store) (i : String) (c : String) (t : Nat)
    (f : String) (h : PrintedLocked st i) (hf : isFresh st f = true) :
    PrintedLocked ((create_message c t f st).2) i := by
  have hfi : f ≠ i := by
    intro hfi
    subst hfi
    unfold isFresh at hf
    rw [h.1] at hf
    cases hf
  rw [create_fresh_append st c t f hf]
  constructor
  · rw [hasId_append, h.1]
    rfl
  · intro x hx hxi
    rcases List.mem_append.mp hx with hin | hnew
    · exact h.2 x hin hxi
    · rcases List.mem_singleton.mp hnew with rfl
      exact absurd hxi hfi

theorem locked_applyOps (st : Store) (i : String) (ops : List StoreOp)
    (h : PrintedLocked st i) (hf : freshOps st ops = true) :
    PrintedLocked (applyOps st ops) i := by
  induction ops generalizing st with
  | nil => exact h
  | cons op rest ih =>
    unfold freshOps at hf
    rw [Bool.and_eq_true] at hf
    have hstep : PrintedLocked (applyOp st op) i := by
      cases op with
      | create c t f => exact locked_create st i c t f h hf.1
      | markPrinted j t => exact locked_mark st i j t h
    exact ih (applyOp st op) hstep hf.2

/-! ## Worker-loop lemmas -/

theorem runIteration_connected (w : WorkerState) (st : Store) (o : IterOracle)
    (hp : w.printer = some ()) :
    runIteration w st o = iterFromPoll w st o [] := by
  unfold runIteration
  rw [hp]

theorem iterFromPoll_printfail (w : WorkerState) (st : Store) (o : IterOracle)
    (acts : List WAction) (m : Item)
    (hpoll : o.poll = PollOutcome.netOk)
    (hm : get_next_unprinted st = some m)
    (hpr : (print_message_result w o.printHw).1 = false) :
    iterFromPoll w st o acts
      = ((print_message_result w o.printHw).2, st,
         acts ++ [WAction.pollStore, WAction.printAttempt m.id,
                  WAction.sleepPause]) := by
  simp [iterFromPoll, hpoll, hm, hpr]

theorem print_message_result_fail (w : WorkerState) (o : PrintHw)
    (hp : w.printer = some ()) (ho : o ≠ PrintHw.ok) :
    (print_message_result w o).1 = false := by
  unfold print_message_result
  rw [hp]
  cases o
  · exact absurd rfl ho
  · rfl
  · rfl
  · rfl

theorem iterFromPoll_acts_prefix (w : WorkerState) (st : Store)
    (o : IterOracle) (acts : List WAction) :
    ∃ l, (iterFromPoll w st o acts).2.2 = acts ++ l := by
  unfold iterFromPoll
  cases hpoll : o.poll with
  | netFail => exact ⟨_, rfl⟩
  | netOk =>
    cases hm : get_next_unprinted st with
    | none => exact ⟨_, rfl⟩
    | some m =>
      cases hpr : (print_message_result w o.printHw).1 with
      | true =>
        cases hmn : o.markNet with
        | netOk =>
          exact ⟨[WAction.pollStore, WAction.printAttempt m.id,
                  WAction.markPrintedCall m.id, WAction.sleepPause],
                 by simp [hm, hpr, hmn]⟩
        | netFail =>
          exact ⟨[WAction.pollStore, WAction.printAttempt m.id,
                  WAction.markPrintedCall m.id, WAction.sleepPause],
                 by simp [hm, hpr, hmn]⟩
      | false =>
        exact ⟨[WAction.pollStore, WAction.printAttempt m.id,
                WAction.sleepPause], by simp [hm, hpr]⟩

theorem connectAttempt_not_mem_iterFromPoll (w : WorkerState) (st : Store)
    (o : IterOracle) (acts : List WAction)
    (h : WAction.connectAttempt ∉ acts) :
    WAction.connectAttempt ∉ (iterFromPoll w st o acts).2.2 := by
  unfold iterFromPoll
  cases hpoll : o.poll with
  | netFail => simp [List.mem_append, h]
  | netOk =>
    cases hm : get_next_unprinted st with
    | none => simp [List.mem_append, h]
    | some m =>
      cases hpr : (print_message_result w o.printHw).1 with
      | true =>
        cases hmn : o.markNet with
        | netOk => simp [hm, hpr, hmn, List.mem_append, h]
        | netFail => simp [hm, hpr, hmn, List.mem_append, h]
      | false => simp [hm, hpr, List.mem_append, h]

theorem runIteration_disconnected_head (w : WorkerState) (st : Store)
    (o : IterOracle) (hp : w.printer = none) :
    ((runIteration w st o).2.2).head? = some WAction.connectAttempt := by
  unfold runIteration
  rw [hp]
  cases hc : (connect_printer o.connect w).1 with
  | false => simp [hc]
  | true =>
    obtain ⟨l, hl⟩ :=
      iterFromPoll_acts_prefix (connect_printer o.connect w).2 st o
        [WAction.connectAttempt]
    simp [hc, hl]

/-! ## Claims -/

/-- C1: the claim says `create(sender, content)` returns a Message recording
the given sender, with `sequence_number` the next integer (1 for the first
message), `created_at` the creation time, `printed` false and `printed_at`
null.  The code does not deliver this: app.py passes `(name, content)` to
db.py's single-parameter `create_message`, so the endpoint call raises
`TypeError`, is caught by the catch-all handler, answers 500 and stores
nothing; and `create_message` itself writes no `name` and no
`message_number` (the spec's `sequence_number`) attribute at all — although
it does set `content`, `created_at = now`, `printed = 'false'` and
`printed_at = None` as claimed. -/
theorem c1_create_code_bug :
    (app_create_message (some "Ann") (some "Hi") []).1.1 = 500
    ∧ (app_create_message (some "Ann") (some "Hi") []).2 = []
    ∧ (create_message "Hi" 7 "id-1" []).1.name = none
    ∧ (create_message "Hi" 7 "id-1" []).1.message_number = none
    ∧ (create_message "Hi" 7 "id-1" []).1.content = some "Hi"
    ∧ (create_message "Hi" 7 "id-1" []).1.created_at = some 7
    ∧ (create_message "Hi" 7 "id-1" []).1.printed = some "false"
    ∧ (create_message "Hi" 7 "id-1" []).1.printed_at = none := by
  exact ⟨rfl, rfl, rfl, rfl, rfl, rfl, rfl, rfl⟩

/-- C2 counterexample: create message "Hi" under id "a" at time 0, mark it
printed at time 1, mark it again at time 2.  The second call overwrites
`printed_at` from 1 to 2, so the final state is not identical to the state
after the first call — refuting the claim that a second `mark_printed`
never changes the `printed_at` value set by the first successful call. -/
theorem c2_counterexample :
    mark_message_printed "a" 1 (create_message "Hi" 0 "a" []).2
      = [{ id := "a", name := none, content := some "Hi",
           created_at := some 0, printed := some "true",
           printed_at := some 1, message_number := none }]
    ∧ mark_message_printed "a" 2
        (mark_message_printed "a" 1 (create_message "Hi" 0 "a" []).2)
      = [{ id := "a", name := none, content := some "Hi",
           created_at := some 0, printed := some "true",
           printed_at := some 2, message_number := none }]
    ∧ mark_message_printed "a" 2
        (mark_message_printed "a" 1 (create_message "Hi" 0 "a" []).2)
      ≠ mark_message_printed "a" 1 (create_message "Hi" 0 "a" []).2 := by
  decide

/-- C2 (amended): a second `mark_printed` on the same id never errors (the
endpoint answers 200 again) and leaves the printed flag true, but it
overwrites `printed_at` with the second call's timestamp — marking twice
equals marking once at the second call's time, so the final state is
unchanged only when the two calls carry the same timestamp. -/
theorem c2_mark_printed_overwrite (st : Store) (i : String) (t1 t2 : Nat)
    (hv : validate_message_id (some i) = Except.ok i) :
    (app_mark_message_printed (some i) t2
        (mark_message_printed i t1 st)).1.1 = 200
    ∧ (app_mark_message_printed (some i) t2
          (mark_message_printed i t1 st)).2
        = mark_message_printed i t2 st
    ∧ (∀ x ∈ mark_message_printed i t2 (mark_message_printed i t1 st),
         x.id = i → x.printed = some "true" ∧ x.printed_at = some t2)
    ∧ mark_message_printed i t2 (mark_message_printed i t2 st)
        = mark_message_printed i t2 st := by
  unfold app_mark_message_printed
  rw [hv]
  exact ⟨rfl, mark_absorb st i t1 t2,
         mark_matching (mark_message_printed i t1 st) i t2,
         mark_absorb st i t2 t2⟩

theorem c2_witness :
    validate_message_id (some "a") = Except.ok "a"
    ∧ ((app_mark_message_printed (some "a") 2
            (mark_message_printed "a" 1 [])).1.1 = 200
       ∧ (app_mark_message_printed (some "a") 2
              (mark_message_printed "a" 1 [])).2
            = mark_message_printed "a" 2 []
       ∧ (∀ x ∈ mark_message_printed "a" 2 (mark_message_printed "a" 1 []),
            x.id = "a" → x.printed = some "true" ∧ x.printed_at = some 2)
       ∧ mark_message_printed "a" 2 (mark_message_printed "a" 2 [])
           = mark_message_printed "a" 2 []) :=
  ⟨rfl, c2_mark_printed_overwrite [] "a" 1 2 rfl⟩

/-- C4 counterexample: marking an id that is not in the store ("ghost", on
the empty store) answers 200 — not NotFound — and creates a brand-new
record holding only the id and the printed fields, refuting both the
NotFound half of the claim and "creates no new record for an unknown id". -/
theorem c4_counterexample :
    (app_mark_message_printed (some "ghost") 5 []).1.1 = 200
    ∧ (app_mark_message_printed (some "ghost") 5 []).2
        = [{ id := "ghost", name := none, content := none,
             created_at := none, printed := some "true",
             printed_at := some 5, message_number := none }] := by
  decide

/-- C4 (amended): `mark_printed` answers success (200) for every well-formed
id whether or not a matching message exists.  When the id exists it sets
`printed = true` and `printed_at` on exactly the matching message, leaving
every other message untouched; when the id is unknown it does not report
NotFound but upserts a new record (the store grows by one item). -/
theorem c4_mark_printed_upsert (st : Store) (i : String) (t : Nat)
    (hv : validate_message_id (some i) = Except.ok i) :
    (app_mark_message_printed (some i) t st).1.1 = 200
    ∧ (app_mark_message_printed (some i) t st).2 = mark_message_printed i t st
    ∧ (∀ x ∈ st, x.id ≠ i → x ∈ mark_message_printed i t st)
    ∧ (∀ x ∈ mark_message_printed i t st, x.id = i →
         x.printed = some "true" ∧ x.printed_at = some t)
    ∧ (mark_message_printed i t st).length
        = (if isFresh st i = true then st.length + 1 else st.length) := by
  unfold app_mark_message_printed
  rw [hv]
  exact ⟨rfl, rfl, fun x hx hne => mem_mark_of_ne st i t x hx hne,
         mark_matching st i t, mark_length st i t⟩

theorem c4_witness :
    validate_message_id (some "a") = Except.ok "a"
    ∧ ((app_mark_message_printed (some "a") 3
          (create_message "Hi" 0 "a" []).2).1.1 = 200
       ∧ (app_mark_message_printed (some "a") 3
              (create_message "Hi" 0 "a" []).2).2
            = mark_message_printed "a" 3 (create_message "Hi" 0 "a" []).2
       ∧ (∀ x ∈ (create_message "Hi" 0 "a" []).2, x.id ≠ "a" →
            x ∈ mark_message_printed "a" 3 (create_message "Hi" 0 "a" []).2)
       ∧ (∀ x ∈ mark_message_printed "a" 3 (create_message "Hi" 0 "a" []).2,
            x.id = "a" → x.printed = some "true" ∧ x.printed_at = some 3)
       ∧ (mark_message_printed "a" 3 (create_message "Hi" 0 "a" []).2).length
           = (if isFresh (create_message "Hi" 0 "a" []).2 "a" = true
              then (create_message "Hi" 0 "a" []).2.length + 1
              else (create_message "Hi" 0 "a" []).2.length)) :=
  ⟨rfl, c4_mark_printed_upsert (create_message "Hi" 0 "a" []).2 "a" 3 rfl⟩

/-- C3: on any well-formed store, `find_oldest_unprinted`
(`get_next_unprinted`) returns "absent" exactly when no unprinted message
exists, and otherwise returns an unprinted message that splits the
insertion-ordered sequence of unprinted messages so that everything before
it is strictly newer and everything after it is at least as new — i.e. the
minimum `created_at` among unprinted messages, ties broken by insertion
order.  The next-to-print endpoint passes the result through with status
200, so the empty case is an explicit empty body, not an error. -/
theorem c3_find_oldest_unprinted (st : Store) (hwf : WF st) :
    (get_next_unprinted st = none ↔ unprintedOf st = [])
    ∧ (∀ m, get_next_unprinted st = some m →
        m.printed = some "false"
        ∧ ∃ pre suf, unprintedOf st = pre ++ m :: suf
            ∧ (∀ y ∈ pre, key m < key y)
            ∧ (∀ y ∈ suf, key m ≤ key y))
    ∧ (get_next_to_print st).1 = 200
    ∧ (get_next_to_print st).2 = get_next_unprinted st := by
  have hfeq := filter_index_eq_unprinted st hwf
  refine ⟨?_, ?_, rfl, rfl⟩
  · rw [get_next_unprinted_none_iff, hfeq]
  · intro m hm
    refine ⟨(get_next_unprinted_unprinted st m hm).2, ?_⟩
    obtain ⟨pre, suf, hsplit, hpre, hsuf⟩ := get_next_unprinted_some st m hm
    exact ⟨pre, suf, hfeq.symm.trans hsplit, hpre, hsuf⟩

theorem c3_witness :
    WF [{ id := "A", name := none, content := some "m1", created_at := some 5,
          printed := some "true", printed_at := some 6, message_number := none },
        { id := "B", name := none, content := some "m2", created_at := some 3,
          printed := some "false", printed_at := none, message_number := none },
        { id := "C", name := none, content := some "m3", created_at := some 3,
          printed := some "false", printed_at := none, message_number := none }]
    ∧ ((get_next_unprinted
          [{ id := "A", name := none, content := some "m1", created_at := some 5,
             printed := some "true", printed_at := some 6, message_number := none },
           { id := "B", name := none, content := some "m2", created_at := some 3,
             printed := some "false", printed_at := none, message_number := none },
           { id := "C", name := none, content := some "m3", created_at := some 3,
             printed := some "false", printed_at := none, message_number := none }] = none
        ↔ unprintedOf
          [{ id := "A", name := none, content := some "m1", created_at := some 5,
             printed := some "true", printed_at := some 6, message_number := none },
           { id := "B", name := none, content := some "m2", created_at := some 3,
             printed := some "false", printed_at := none, message_number := none },
           { id := "C", name := none, content := some "m3", created_at := some 3,
             printed := some "false", printed_at := none, message_number := none }] = [])
       ∧ (∀ m, get_next_unprinted
            [{ id := "A", name := none, content := some "m1", created_at := some 5,
               printed := some "true", printed_at := some 6, message_number := none },
             { id := "B", name := none, content := some "m2", created_at := some 3,
               printed := some "false", printed_at := none, message_number := none },
             { id := "C", name := none, content := some "m3", created_at := some 3,
               printed := some "false", printed_at := none, message_number := none }] = some m →
           m.printed = some "false"
           ∧ ∃ pre suf, unprintedOf
               [{ id := "A", name := none, content := some "m1", created_at := some 5,
                  printed := some "true", printed_at := some 6, message_number := none },
                { id := "B", name := none, content := some "m2", created_at := some 3,
                  printed := some "false", printed_at := none, message_number := none },
                { id := "C", name := none, content := some "m3", created_at := some 3,
                  printed := some "false", printed_at := none, message_number := none }] = pre ++ m :: suf
               ∧ (∀ y ∈ pre, key m < key y)
               ∧ (∀ y ∈ suf, key m ≤ key y))
       ∧ (get_next_to_print
            [{ id := "A", name := none, content := some "m1", created_at := some 5,
               printed := some "true", printed_at := some 6, message_number := none },
             { id := "B", name := none, content := some "m2", created_at := some 3,
               printed := some "false", printed_at := none, message_number := none },
             { id := "C", name := none, content := some "m3", created_at := some 3,
               printed := some "false", printed_at := none, message_number := none }]).1 = 200
       ∧ (get_next_to_print
            [{ id := "A", name := none, content := some "m1", created_at := some 5,
               printed := some "true", printed_at := some 6, message_number := none },
             { id := "B", name := none, content := some "m2", created_at := some 3,
               printed := some "false", printed_at := none, message_number := none },
             { id := "C", name := none, content := some "m3", created_at := some 3,
               printed := some "false", printed_at := none, message_number := none }]).2
           = get_next_unprinted
             [{ id := "A", name := none, content := some "m1", created_at := some 5,
                printed := some "true", printed_at := some 6, message_number := none },
              { id := "B", name := none, content := some "m2", created_at := some 3,
                printed := some "false", printed_at := none, message_number := none },
              { id := "C", name := none, content := some "m3", created_at := some 3,
                printed := some "false", printed_at := none, message_number := none }]) :=
  ⟨by decide,
   c3_find_oldest_unprinted
     [{ id := "A", name := none, content := some "m1", created_at := some 5,
        printed := some "true", printed_at := some 6, message_number := none },
      { id := "B", name := none, content := some "m2", created_at := some 3,
        printed := some "false", printed_at := none, message_number := none },
      { id := "C", name := none, content := some "m3", created_at := some 3,
        printed := some "false", printed_at := none, message_number := none }]
     (by decide)⟩

/-- C5: the printed flag is monotonic — after `mark_printed(id)` runs, every
record bearing that id stays printed across any subsequent sequence of
`create` (with fresh uuid4 ids) and `mark_printed` operations, and
`find_oldest_unprinted` never again returns a message with that id, since
it only returns messages with `printed = "false"`. -/
theorem c5_printed_monotonic (st : Store) (i : String) (t : Nat)
    (ops : List StoreOp)
    (hf : freshOps (mark_message_printed i t st) ops = true) :
    (∀ x ∈ applyOps (mark_message_printed i t st) ops, x.id = i →
       x.printed = some "true")
    ∧ (∀ m, get_next_unprinted (applyOps (mark_message_printed i t st) ops)
          = some m → m.id ≠ i) := by
  have hlock := locked_applyOps (mark_message_printed i t st) i ops
    (locked_after_mark st i t) hf
  refine ⟨hlock.2, ?_⟩
  intro m hm hmi
  have hmem := get_next_unprinted_unprinted _ m hm
  have htrue := hlock.2 m hmem.1 hmi
  have hfalse := hmem.2
  rw [htrue] at hfalse
  exact absurd (Option.some.inj hfalse) (by decide)

theorem c5_witness :
    freshOps (mark_message_printed "a" 1 (create_message "Hi" 0 "a" []).2)
      [StoreOp.create "Yo" 2 "b", StoreOp.markPrinted "b" 3,
       StoreOp.create "Z" 4 "c"] = true
    ∧ ((∀ x ∈ applyOps (mark_message_printed "a" 1 (create_message "Hi" 0 "a" []).2)
          [StoreOp.create "Yo" 2 "b", StoreOp.markPrinted "b" 3,
           StoreOp.create "Z" 4 "c"], x.id = "a" → x.printed = some "true")
       ∧ (∀ m, get_next_unprinted
             (applyOps (mark_message_printed "a" 1 (create_message "Hi" 0 "a" []).2)
               [StoreOp.create "Yo" 2 "b", StoreOp.markPrinted "b" 3,
                StoreOp.create "Z" 4 "c"]) = some m → m.id ≠ "a")) :=
  ⟨by decide,
   c5_printed_monotonic (create_message "Hi" 0 "a" []).2 "a" 1
     [StoreOp.create "Yo" 2 "b", StoreOp.markPrinted "b" 3,
      StoreOp.create "Z" 4 "c"] (by decide)⟩

/-- C6: whenever the poll returns a message and the print attempt fails
(any hardware outcome other than success), the loop iteration issues no
`mark_as_printed` call, leaves the store untouched — so the message's
printed flag is still "false" — and the store offers the same message again
on the next poll. -/
theorem c6_print_failure_no_ack (w : WorkerState) (st : Store)
    (o : IterOracle) (m : Item)
    (hp : w.printer = some ()) (hpoll : o.poll = PollOutcome.netOk)
    (hm : get_next_unprinted st = some m) (hfail : o.printHw ≠ PrintHw.ok) :
    (runIteration w st o).2.1 = st
    ∧ (∀ j, WAction.markPrintedCall j ∉ (runIteration w st o).2.2)
    ∧ get_next_unprinted (runIteration w st o).2.1 = some m := by
  have hpr := print_message_result_fail w o.printHw hp hfail
  rw [runIteration_connected w st o hp,
      iterFromPoll_printfail w st o [] m hpoll hm hpr]
  refine ⟨rfl, ?_, hm⟩
  intro j hj
  simp at hj

theorem c6_witness :
    (WorkerState.mk (some ()) true).printer = some ()
    ∧ (IterOracle.mk ConnectOutcome.ok PollOutcome.netOk PrintHw.escposError
        MarkNet.netOk 9).poll = PollOutcome.netOk
    ∧ get_next_unprinted (create_message "Hi" 0 "a" []).2
        = some (create_message "Hi" 0 "a" []).1
    ∧ (IterOracle.mk ConnectOutcome.ok PollOutcome.netOk PrintHw.escposError
        MarkNet.netOk 9).printHw ≠ PrintHw.ok
    ∧ ((runIteration (WorkerState.mk (some ()) true)
          (create_message "Hi" 0 "a" []).2
          (IterOracle.mk ConnectOutcome.ok PollOutcome.netOk
            PrintHw.escposError MarkNet.netOk 9)).2.1
        = (create_message "Hi" 0 "a" []).2
       ∧ (∀ j, WAction.markPrintedCall j ∉
           (runIteration (WorkerState.mk (some ()) true)
             (create_message "Hi" 0 "a" []).2
             (IterOracle.mk ConnectOutcome.ok PollOutcome.netOk
               PrintHw.escposError MarkNet.netOk 9)).2.2)
       ∧ get_next_unprinted
           (runIteration (WorkerState.mk (some ()) true)
             (create_message "Hi" 0 "a" []).2
             (IterOracle.mk ConnectOutcome.ok PollOutcome.netOk
               PrintHw.escposError MarkNet.netOk 9)).2.1
         = some (create_message "Hi" 0 "a" []).1) :=
  ⟨rfl, rfl, by decide, by decide,
   c6_print_failure_no_ack (WorkerState.mk (some ()) true)
     (create_message "Hi" 0 "a" []).2
     (IterOracle.mk ConnectOutcome.ok PollOutcome.netOk PrintHw.escposError
       MarkNet.netOk 9)
     (create_message "Hi" 0 "a" []).1 rfl rfl (by decide) (by decide)⟩

/-- C7 counterexample: a device-busy hardware error (`EscposError`) during a
print attempt does not clear the worker's printer handle — after the failed
iteration the handle is still held, and the following iteration goes
straight to polling without any connect attempt — refuting the claim that
every transient hardware error (device busy included) is treated as
"printer not connected" and takes the reconnect-backoff path. -/
theorem c7_counterexample :
    (runIteration (WorkerState.mk (some ()) true)
        (create_message "Hi" 0 "a" []).2
        (IterOracle.mk ConnectOutcome.ok PollOutcome.netOk PrintHw.escposError
          MarkNet.netOk 1)).1.printer = some ()
    ∧ WAction.connectAttempt ∉
        (runIteration
          (runIteration (WorkerState.mk (some ()) true)
            (create_message "Hi" 0 "a" []).2
            (IterOracle.mk ConnectOutcome.ok PollOutcome.netOk
              PrintHw.escposError MarkNet.netOk 1)).1
          (create_message "Hi" 0 "a" []).2
          (IterOracle.mk ConnectOutcome.ok PollOutcome.netOk
            PrintHw.escposError MarkNet.netOk 1)).2.2 := by
  decide

/-- C7 (amended): only a mid-print disconnection (`USBNotFoundError`) is
treated as "printer not connected": it clears the handle, so the next
iteration takes the reconnect path.  A device-busy/other escpos hardware
error (`EscposError`) leaves the handle in place: the print fails for this
cycle, but the next iteration reuses the existing handle and goes straight
to polling, with no connect attempt. -/
theorem c7_only_disconnect_clears_handle (w : WorkerState) (st : Store)
    (o : IterOracle) (m : Item)
    (hp : w.printer = some ()) (hpoll : o.poll = PollOutcome.netOk)
    (hm : get_next_unprinted st = some m) :
    (o.printHw = PrintHw.usbNotFound →
       (runIteration w st o).1.printer = none)
    ∧ (o.printHw = PrintHw.escposError →
       (runIteration w st o).1.printer = some ()
       ∧ ∀ st2 o2, WAction.connectAttempt ∉
           (runIteration (runIteration w st o).1 st2 o2).2.2) := by
  constructor
  · intro ho
    have hpr : (print_message_result w o.printHw).1 = false :=
      print_message_result_fail w o.printHw hp (by rw [ho]; intro hc; cases hc)
    rw [runIteration_connected w st o hp,
        iterFromPoll_printfail w st o [] m hpoll hm hpr]
    show (print_message_result w o.printHw).2.printer = none
    unfold print_message_result
    rw [hp, ho]
  · intro ho
    have hpr : (print_message_result w o.printHw).1 = false :=
      print_message_result_fail w o.printHw hp (by rw [ho]; intro hc; cases hc)
    have hkeep : (print_message_result w o.printHw).2 = w := by
      unfold print_message_result
      rw [hp, ho]
    rw [runIteration_connected w st o hp,
        iterFromPoll_printfail w st o [] m hpoll hm hpr]
    refine ⟨?_, ?_⟩
    · show (print_message_result w o.printHw).2.printer = some ()
      rw [hkeep]; exact hp
    · intro st2 o2
      show WAction.connectAttempt ∉
        (runIteration (print_message_result w o.printHw).2 st2 o2).2.2
      rw [hkeep, runIteration_connected w st2 o2 hp]
      exact connectAttempt_not_mem_iterFromPoll w st2 o2 [] (by simp)

theorem c7_witness :
    (WorkerState.mk (some ()) true).printer = some ()
    ∧ (IterOracle.mk ConnectOutcome.ok PollOutcome.netOk PrintHw.usbNotFound
        MarkNet.netOk 9).poll = PollOutcome.netOk
    ∧ get_next_unprinted (create_message "Hi" 0 "a" []).2
        = some (create_message "Hi" 0 "a" []).1
    ∧ (((IterOracle.mk ConnectOutcome.ok PollOutcome.netOk PrintHw.usbNotFound
          MarkNet.netOk 9).printHw = PrintHw.usbNotFound →
        (runIteration (WorkerState.mk (some ()) true)
          (create_message "Hi" 0 "a" []).2
          (IterOracle.mk ConnectOutcome.ok PollOutcome.netOk
            PrintHw.usbNotFound MarkNet.netOk 9)).1.printer = none)
       ∧ ((IterOracle.mk ConnectOutcome.ok PollOutcome.netOk PrintHw.usbNotFound
            MarkNet.netOk 9).printHw = PrintHw.escposError →
          (runIteration (WorkerState.mk (some ()) true)
            (create_message "Hi" 0 "a" []).2
            (IterOracle.mk ConnectOutcome.ok PollOutcome.netOk
              PrintHw.usbNotFound MarkNet.netOk 9)).1.printer = some ()
          ∧ ∀ st2 o2, WAction.connectAttempt ∉
              (runIteration
                (runIteration (WorkerState.mk (some ()) true)
                  (create_message "Hi" 0 "a" []).2
                  (IterOracle.mk ConnectOutcome.ok PollOutcome.netOk
                    PrintHw.usbNotFound MarkNet.netOk 9)).1 st2 o2).2.2)) :=
  ⟨rfl, rfl, by decide,
   c7_only_disconnect_clears_handle (WorkerState.mk (some ()) true)
     (create_message "Hi" 0 "a" []).2
     (IterOracle.mk ConnectOutcome.ok PollOutcome.netOk PrintHw.usbNotFound
       MarkNet.netOk 9)
     (create_message "Hi" 0 "a" []).1 rfl rfl (by decide)⟩

/-- C8: a disconnection detected mid-print (`USBNotFoundError` inside
`print_message`) forces the worker back into the disconnected state — the
handle is set to `None` — so the next iteration, whatever the store and
environment do, begins with a connect attempt instead of reusing the dead
handle. -/
theorem c8_disconnect_forces_reconnect (w : WorkerState) (st : Store)
    (o : IterOracle) (m : Item)
    (hp : w.printer = some ()) (hpoll : o.poll = PollOutcome.netOk)
    (hm : get_next_unprinted st = some m)
    (hd : o.printHw = PrintHw.usbNotFound) :
    (runIteration w st o).1.printer = none
    ∧ ∀ st2 o2, ((runIteration (runIteration w st o).1 st2 o2).2.2).head?
        = some WAction.connectAttempt := by
  have hpr : (print_message_result w o.printHw).1 = false :=
    print_message_result_fail w o.printHw hp (by rw [hd]; intro hc; cases hc)
  have hclear : (print_message_result w o.printHw).2.printer = none := by
    unfold print_message_result
    rw [hp, hd]
  rw [runIteration_connected w st o hp,
      iterFromPoll_printfail w st o [] m hpoll hm hpr]
  exact ⟨hclear, fun st2 o2 =>
    runIteration_disconnected_head (print_message_result w o.printHw).2
      st2 o2 hclear⟩

theorem c8_witness :
    (WorkerState.mk (some ()) true).printer = some ()
    ∧ (IterOracle.mk ConnectOutcome.ok PollOutcome.netOk PrintHw.usbNotFound
        MarkNet.netOk 9).poll = PollOutcome.netOk
    ∧ get_next_unprinted (create_message "Hi" 0 "a" []).2
        = some (create_message "Hi" 0 "a" []).1
    ∧ (IterOracle.mk ConnectOutcome.ok PollOutcome.netOk PrintHw.usbNotFound
        MarkNet.netOk 9).printHw = PrintHw.usbNotFound
    ∧ ((runIteration (WorkerState.mk (some ()) true)
          (create_message "Hi" 0 "a" []).2
          (IterOracle.mk ConnectOutcome.ok PollOutcome.netOk
            PrintHw.usbNotFound MarkNet.netOk 9)).1.printer = none
       ∧ ∀ st2 o2,
           ((runIteration
              (runIteration (WorkerState.mk (some ()) true)
                (create_message "Hi" 0 "a" []).2
                (IterOracle.mk ConnectOutcome.ok PollOutcome.netOk
                  PrintHw.usbNotFound MarkNet.netOk 9)).1 st2 o2).2.2).head?
             = some WAction.connectAttempt) :=
  ⟨rfl, rfl, by decide, rfl,
   c8_disconnect_forces_reconnect (WorkerState.mk (some ()) true)
     (create_message "Hi" 0 "a" []).2
     (IterOracle.mk ConnectOutcome.ok PollOutcome.netOk PrintHw.usbNotFound
       MarkNet.netOk 9)
     (create_message "Hi" 0 "a" []).1 rfl rfl (by decide) rfl⟩

/-- C9: `connect_printer` handles every outcome of the USB constructor —
success, device not found, permission denied, and any other exception —
without letting an exception escape (the Lean embedding is total because
every `except` branch of the source returns): it returns true exactly on
success, otherwise it returns false and leaves the handle `None`; it never
touches the running flag; and calling it again is insensitive to the state
the previous call left behind, so it is safe to call repeatedly while
disconnected. -/
theorem c9_connect_printer_total (w : WorkerState) (o o2 : ConnectOutcome) :
    ((connect_printer o w).1 = true ↔ o = ConnectOutcome.ok)
    ∧ (connect_printer o w).2.printer
        = (if o = ConnectOutcome.ok then some () else none)
    ∧ (connect_printer o w).2.running = w.running
    ∧ connect_printer o2 ((connect_printer o w).2) = connect_printer o2 w := by
  cases o <;> cases o2 <;> simp [connect_printer]

theorem c9_witness :
    ((connect_printer ConnectOutcome.usbNotFound
        (WorkerState.mk (some ()) true)).1 = true
      ↔ ConnectOutcome.usbNotFound = ConnectOutcome.ok)
    ∧ (connect_printer ConnectOutcome.usbNotFound
         (WorkerState.mk (some ()) true)).2.printer
        = (if ConnectOutcome.usbNotFound = ConnectOutcome.ok
           then some () else none)
    ∧ (connect_printer ConnectOutcome.usbNotFound
         (WorkerState.mk (some ()) true)).2.running
        = (WorkerState.mk (some ()) true).running
    ∧ connect_printer ConnectOutcome.permissionDenied
        ((connect_printer ConnectOutcome.usbNotFound
           (WorkerState.mk (some ()) true)).2)
        = connect_printer ConnectOutcome.permissionDenied
            (WorkerState.mk (some ()) true) :=
  c9_connect_printer_total (WorkerState.mk (some ()) true)
    ConnectOutcome.usbNotFound ConnectOutcome.permissionDenied

/-- C10: a record created by the backend's `create_message` carries no
`name` and no `message_number` attribute, so when the worker formats it,
the `.get` defaults kick in: the FROM line's payload is the default
"Anonymous" and the MSG line's payload is "#000" (the default 0 rendered
through `f"{n:03d}"`), for every content, creation time and id. -/
theorem c10_formatter_defaults (content : String) (now : Nat) (fid : String)
    (st : Store) :
    (create_message content now fid st).1.name = none
    ∧ (create_message content now fid st).1.message_number = none
    ∧ (print_message_blocks (create_message content now fid st).1)[22]?
        = some (PrintOp.text "FROM: ")
    ∧ (print_message_blocks (create_message content now fid st).1)[24]?
        = some (PrintOp.text "Anonymous\n\n")
    ∧ (print_message_blocks (create_message content now fid st).1)[10]?
        = some (PrintOp.text "MSG: ")
    ∧ (print_message_blocks (create_message content now fid st).1)[12]?
        = some (PrintOp.text "#000\n\n") := by
  refine ⟨rfl, rfl, rfl, rfl, rfl, ?_⟩
  show some (PrintOp.text ("#" ++ pad3 0 ++ "\n\n")) = some (PrintOp.text "#000\n\n")
  rfl

theorem c10_witness :
    (create_message "Hi" 7 "id-1" []).1.name = none
    ∧ (create_message "Hi" 7 "id-1" []).1.message_number = none
    ∧ (print_message_blocks (create_message "Hi" 7 "id-1" []).1)[22]?
        = some (PrintOp.text "FROM: ")
    ∧ (print_message_blocks (create_message "Hi" 7 "id-1" []).1)[24]?
        = some (PrintOp.text "Anonymous\n\n")
    ∧ (print_message_blocks (create_message "Hi" 7 "id-1" []).1)[10]?
        = some (PrintOp.text "MSG: ")
    ∧ (print_message_blocks (create_message "Hi" 7 "id-1" []).1)[12]?
        = some (PrintOp.text "#000\n\n") :=
  c10_formatter_defaults "Hi" 7 "id-1" []
